import Mathlib

/-!
Shallow embedding of the common-cents-backend admin REST routes
(orders, customers, products, competitors) and proofs about them.

Conventions of the embedding:
* SQL tables are Lean lists of row structures; serial ids come from
  explicit sequence counters in the `DB` state.
* JavaScript numbers are modelled as exact rationals (`ℚ`).
* Nullable columns and optional request/query fields are `Option`s;
  JavaScript truthiness tests (`if (x)`) on strings and numeric ids are
  modelled by explicit `jsTruthy*` functions (empty string, 0, null and
  undefined are falsy).
* `NOW()` is a `Nat` timestamp argument passed to each handler.
* `ILIKE '%s%'` is case-insensitive substring containment; an `ILIKE`
  applied to a NULL column is SQL-NULL, hence falsy inside `WHERE`.
* The multi-statement order-creation transaction takes a failure oracle
  `fails : Nat → Bool` indexed by statement position (0 = BEGIN); a
  failing statement routes control to the catch block exactly as in the
  source, and uncommitted writes are discarded (transaction atomicity).
  Every handler result carries the trace of connection actions taken.
-/

namespace CommonCents

/-- JavaScript truthiness of an optional string request field:
`undefined`, `null` and `""` are falsy. -/
def jsTruthyStr : Option String → Bool
  | some s => s ≠ ""
  | none => false

/-- JavaScript truthiness of an optional numeric id:
`undefined`, `null` and `0` are falsy. -/
def jsTruthyNat : Option Nat → Bool
  | some n => n ≠ 0
  | none => false

/-- Boolean test that `needle` is a contiguous run at the head of `hay`. -/
def charsPrefixOf : List Char → List Char → Bool
  | [], _ => true
  | _ :: _, [] => false
  | a :: as, b :: bs => a == b && charsPrefixOf as bs

/-- Boolean test that `needle` occurs contiguously anywhere in `hay`. -/
def charsInfixOf (needle : List Char) : List Char → Bool
  | [] => charsPrefixOf needle []
  | b :: bs => charsPrefixOf needle (b :: bs) || charsInfixOf needle bs

/-- Case-insensitive substring containment: the SQL predicate
`hay ILIKE '%needle%'` on non-NULL text. -/
def ilikeContains (needle hay : String) : Bool :=
  charsInfixOf needle.toLower.data hay.toLower.data

/-- SQL `col ILIKE '%needle%'` where `col` is nullable: a NULL operand
makes the comparison NULL, which is falsy inside a WHERE clause. -/
def ilikeContainsOpt (needle : String) : Option String → Bool
  | some hay => ilikeContains needle hay
  | none => false

/-- Row of the `customers` table. -/
structure CustomerRow where
  id : Nat
  name : String
  email : String
  phone : Option String
  segment : String
  notes : Option String
  total_spent : ℚ
  order_count : Nat
  created_at : Nat
  updated_at : Nat
  deriving Repr, DecidableEq

/-- Row of the `orders` table. -/
structure OrderRow where
  id : Nat
  order_number : String
  customer_id : Option Nat
  subtotal : ℚ
  tax : ℚ
  total : ℚ
  status : String
  payment_status : String
  notes : Option String
  shipping_address : Option String
  payment_method : Option String
  created_at : Nat
  updated_at : Nat
  deriving Repr, DecidableEq

/-- Row of the `order_items` table. -/
structure OrderItemRow where
  order_id : Nat
  product_id : Option Nat
  product_name : Option String
  quantity : ℚ
  unit_price : ℚ
  total_price : ℚ
  created_at : Nat
  deriving Repr, DecidableEq

/-- Row of the `products` table. -/
structure ProductRow where
  id : Nat
  name : String
  description : Option String
  price : ℚ
  category : Option String
  inventory_count : Nat
  sku : Option String
  active : Bool
  image_url : Option String
  created_at : Nat
  updated_at : Nat
  deriving Repr, DecidableEq

/-- Row of the `competitors` table (`kind` embeds the SQL column named
`type`, which is not a usable field name in Lean). -/
structure CompetitorRow where
  id : Nat
  name : String
  website : Option String
  distance : Option ℚ
  kind : String
  threat_level : String
  rating : Option ℚ
  rating_change : ℚ
  review_count : Nat
  avg_price : Option ℚ
  price_diff : ℚ
  strengths : Option String
  weaknesses : Option String
  top_items : Option String
  sentiment : Option String
  notes : Option String
  created_at : Nat
  updated_at : Nat
  deriving Repr, DecidableEq

/-- The full database state; `*Seq` counters model the serial id
sequences. -/
structure DB where
  orders : List OrderRow
  order_items : List OrderItemRow
  customers : List CustomerRow
  products : List ProductRow
  competitors : List CompetitorRow
  orderSeq : Nat
  customerSeq : Nat
  deriving Repr, DecidableEq

/-! ### Order number generation (`generateOrderNumber`) -/

/-- Digit character of base-36 rendering, lowercase as produced by the
JavaScript `Number.prototype.toString(36)`. -/
def base36DigitChar (n : Nat) : Char :=
  if n < 10 then Char.ofNat (48 + n) else Char.ofNat (87 + n)

/-- Accumulator loop of base-36 rendering of a natural number. -/
def natToBase36Aux (n : Nat) (acc : List Char) : List Char :=
  if h : n = 0 then acc
  else natToBase36Aux (n / 36) (base36DigitChar (n % 36) :: acc)
  decreasing_by exact Nat.div_lt_self (Nat.pos_of_ne_zero h) (by decide)

/-- JavaScript `n.toString(36)` for a nonnegative integer `n`. -/
def natToBase36 (n : Nat) : String :=
  if n = 0 then "0" else String.mk (natToBase36Aux n [])

/-- The 4-character window `substring(2, 6)` of
`Math.random().toString(36)`, where the random draw is represented by
the finite list of base-36 fraction digits of its exact value (no
trailing zeros, as the JavaScript renderer never prints them; the empty
list stands for a draw of exactly 0, rendered `"0"`).  The window starts
after the two characters `0.` and thus holds at most 4 digits — fewer
when the expansion terminates early. -/
def randomSuffix (randDigits : List (Fin 36)) : String :=
  String.mk ((randDigits.take 4).map (fun d => base36DigitChar d.val))

/-- The `generateOrderNumber` function of the orders module:
`` `${prefix}-${timestamp}-${random}` `` with `timestamp` the current
millisecond clock in base 36 and `random` the window of a fresh
`Math.random()` draw, both uppercased. -/
def generateOrderNumber (nowMs : Nat) (randDigits : List (Fin 36)) : String :=
  "ORD" ++ "-" ++ (natToBase36 nowMs).toUpper ++ "-" ++ (randomSuffix randDigits).toUpper

/-! ### List endpoints: dynamic filters, pagination and paired count -/

/-- Uniform list-endpoint response envelope
`{success, data, total, limit, offset}`. -/
structure ListEnvelope (α : Type) where
  success : Bool
  data : List α
  total : Nat
  limit : Nat
  offset : Nat
  deriving Repr, DecidableEq

/-- Query-string parameters of `GET /api/orders`; absent parameters are
`none`, and `limit`/`offset` carry their destructuring defaults. -/
structure OrdersQuery where
  limit : Nat := 50
  offset : Nat := 0
  status : Option String := none
  payment_status : Option String := none
  search : Option String := none
  deriving Repr, DecidableEq

/-- A row of `orders o LEFT JOIN customers c ON o.customer_id = c.id`
with the selected `c.name AS customer_name, c.email AS customer_email`. -/
structure OrderJoinRow where
  order : OrderRow
  customer_name : Option String
  customer_email : Option String
  deriving Repr, DecidableEq

/-- The LEFT JOIN of `orders` with `customers` on
`o.customer_id = c.id`: each order yields one row per matching
customer, or a single row with NULL customer columns when none match. -/
def ordersJoinRows (db : DB) : List OrderJoinRow :=
  db.orders.flatMap (fun o =>
    let hits := db.customers.filter (fun c => o.customer_id == some c.id)
    if hits.isEmpty then [⟨o, none, none⟩]
    else hits.map (fun c => ⟨o, some c.name, some c.email⟩))

/-- The WHERE predicate of the orders list: conditions for `search`
(matched against `o.order_number OR c.name`), `status` and
`payment_status` are pushed only for truthy parameters and combined
with AND. -/
def ordersWhere (q : OrdersQuery) (r : OrderJoinRow) : Bool :=
  (if jsTruthyStr q.search then
      ilikeContains (q.search.getD "") r.order.order_number ||
        ilikeContainsOpt (q.search.getD "") r.customer_name
    else true) &&
  (if jsTruthyStr q.status then r.order.status == q.status.getD "" else true) &&
  (if jsTruthyStr q.payment_status then
      r.order.payment_status == q.payment_status.getD "" else true)

/-- Comparator of `ORDER BY o.created_at DESC`. -/
def ordersOrderBy (a b : OrderJoinRow) : Bool :=
  b.order.created_at ≤ a.order.created_at

/-- The page query of `GET /api/orders`: filter, sort, then
`LIMIT $n OFFSET $m`. -/
def ordersPage (db : DB) (q : OrdersQuery) : List OrderJoinRow :=
  ((((ordersJoinRows db).filter (ordersWhere q)).mergeSort ordersOrderBy).drop
    q.offset).take q.limit

/-- The paired count query of `GET /api/orders`:
`SELECT COUNT(*)` over the identical FROM/JOIN/WHERE, bound to
`params.slice(0, -2)` — the filter values only. -/
def ordersCount (db : DB) (q : OrdersQuery) : Nat :=
  ((ordersJoinRows db).filter (ordersWhere q)).length

/-- The `GET /api/orders` list handler's successful response. -/
def ordersListHandler (db : DB) (q : OrdersQuery) : ListEnvelope OrderJoinRow :=
  { success := true
    data := ordersPage db q
    total := ordersCount db q
    limit := q.limit
    offset := q.offset }

/-- Query-string parameters of `GET /api/products`.  `active` is kept
as the raw query string (the handler tests `active !== undefined` and
compares against the literal string `'true'`). -/
structure ProductsQuery where
  limit : Nat := 50
  offset : Nat := 0
  category : Option String := none
  active : Option String := none
  search : Option String := none
  deriving Repr, DecidableEq

/-- The WHERE predicate of the products list: `search` against
`name OR description`, truthy `category` as equality, and `active`
(whenever present, even empty) cast to the boolean `active === 'true'`. -/
def productsWhere (q : ProductsQuery) (r : ProductRow) : Bool :=
  (if jsTruthyStr q.search then
      ilikeContains (q.search.getD "") r.name ||
        ilikeContainsOpt (q.search.getD "") r.description
    else true) &&
  (if jsTruthyStr q.category then r.category == some (q.category.getD "") else true) &&
  (match q.active with
    | some a => r.active == (a == "true")
    | none => true)

/-- Comparator of `ORDER BY created_at DESC` on products. -/
def productsOrderBy (a b : ProductRow) : Bool :=
  b.created_at ≤ a.created_at

/-- The page query of `GET /api/products`. -/
def productsPage (db : DB) (q : ProductsQuery) : List ProductRow :=
  (((db.products.filter (productsWhere q)).mergeSort productsOrderBy).drop
    q.offset).take q.limit

/-- The paired count query of `GET /api/products`. -/
def productsCount (db : DB) (q : ProductsQuery) : Nat :=
  (db.products.filter (productsWhere q)).length

/-- The `GET /api/products` list handler's successful response. -/
def productsListHandler (db : DB) (q : ProductsQuery) : ListEnvelope ProductRow :=
  { success := true
    data := productsPage db q
    total := productsCount db q
    limit := q.limit
    offset := q.offset }

/-- Query-string parameters of `GET /api/customers`. -/
structure CustomersQuery where
  limit : Nat := 50
  offset : Nat := 0
  search : Option String := none
  segment : Option String := none
  deriving Repr, DecidableEq

/-- The WHERE predicate of the customers list: `search` against
`name OR email`, truthy `segment` as equality. -/
def customersWhere (q : CustomersQuery) (r : CustomerRow) : Bool :=
  (if jsTruthyStr q.search then
      ilikeContains (q.search.getD "") r.name ||
        ilikeContains (q.search.getD "") r.email
    else true) &&
  (if jsTruthyStr q.segment then r.segment == q.segment.getD "" else true)

/-- Comparator of `ORDER BY created_at DESC` on customers. -/
def customersOrderBy (a b : CustomerRow) : Bool :=
  b.created_at ≤ a.created_at

/-- The page query of `GET /api/customers`. -/
def customersPage (db : DB) (q : CustomersQuery) : List CustomerRow :=
  (((db.customers.filter (customersWhere q)).mergeSort customersOrderBy).drop
    q.offset).take q.limit

/-- The paired count query of `GET /api/customers`. -/
def customersCount (db : DB) (q : CustomersQuery) : Nat :=
  (db.customers.filter (customersWhere q)).length

/-- The `GET /api/customers` list handler's successful response. -/
def customersListHandler (db : DB) (q : CustomersQuery) : ListEnvelope CustomerRow :=
  { success := true
    data := customersPage db q
    total := customersCount db q
    limit := q.limit
    offset := q.offset }

/-- Query-string parameters of `GET /api/competitors` (default limit
20). -/
structure CompetitorsQuery where
  limit : Nat := 20
  offset : Nat := 0
  threat_level : Option String := none
  deriving Repr, DecidableEq

/-- The WHERE predicate of the competitors list: a single optional
`threat_level` equality. -/
def competitorsWhere (q : CompetitorsQuery) (r : CompetitorRow) : Bool :=
  if jsTruthyStr q.threat_level then r.threat_level == q.threat_level.getD ""
  else true

/-- Comparator of `ORDER BY distance ASC NULLS LAST`. -/
def competitorsOrderBy (a b : CompetitorRow) : Bool :=
  match a.distance, b.distance with
  | some da, some db => da ≤ db
  | some _, none => true
  | none, some _ => false
  | none, none => true

/-- The page query of `GET /api/competitors`. -/
def competitorsPage (db : DB) (q : CompetitorsQuery) : List CompetitorRow :=
  (((db.competitors.filter (competitorsWhere q)).mergeSort competitorsOrderBy).drop
    q.offset).take q.limit

/-- The paired count query of `GET /api/competitors`, bound to
`threat_level ? [threat_level] : []`. -/
def competitorsCount (db : DB) (q : CompetitorsQuery) : Nat :=
  (db.competitors.filter (competitorsWhere q)).length

/-- The `GET /api/competitors` list handler's successful response. -/
def competitorsListHandler (db : DB) (q : CompetitorsQuery) :
    ListEnvelope CompetitorRow :=
  { success := true
    data := competitorsPage db q
    total := competitorsCount db q
    limit := q.limit
    offset := q.offset }

/-! ### Order creation: the multi-statement transaction -/

/-- Actions taken on the dedicated pooled connection checked out by
`POST /api/orders`, including the HTTP response sent while it is held. -/
inductive TxnAction where
  | beginTxn
  | insertOrder
  | insertItem
  | updateCustomer
  | commitTxn
  | rollbackTxn
  | respond (status : Nat)
  | release
  deriving Repr, DecidableEq

/-- A line item of the order-creation request body. -/
structure CreateOrderItem where
  product_id : Option Nat := none
  product_name : Option String := none
  quantity : ℚ
  unit_price : ℚ
  deriving Repr, DecidableEq

/-- Body of `POST /api/orders`. -/
structure CreateOrderReq where
  customer_id : Option Nat := none
  items : Option (List CreateOrderItem) := none
  notes : Option String := none
  shipping_address : Option String := none
  payment_method : Option String := none
  deriving Repr, DecidableEq

/-- The request fails validation when `!items || items.length === 0`. -/
def itemsInvalid (req : CreateOrderReq) : Bool :=
  match req.items with
  | none => true
  | some l => l.isEmpty

/-- Subtotal accumulation loop:
`for (const item of items) subtotal += item.quantity * item.unit_price`. -/
def orderSubtotal (items : List CreateOrderItem) : ℚ :=
  items.foldl (fun acc it => acc + it.quantity * it.unit_price) 0

/-- The order row inserted by the transaction, with
`tax = subtotal * 0.08` and `total = subtotal + tax`, fixed
`status='pending'`, `payment_status='unpaid'`. -/
def mkOrderRow (db : DB) (req : CreateOrderReq) (now : Nat)
    (orderNumber : String) (items : List CreateOrderItem) : OrderRow :=
  let subtotal := orderSubtotal items
  let tax := subtotal * ((8 : ℚ) / 100)
  { id := db.orderSeq
    order_number := orderNumber
    customer_id := req.customer_id
    subtotal := subtotal
    tax := tax
    total := subtotal + tax
    status := "pending"
    payment_status := "unpaid"
    notes := req.notes
    shipping_address := req.shipping_address
    payment_method := req.payment_method
    created_at := now
    updated_at := now }

/-- The `order_items` row inserted for one line item, with
`total_price = quantity * unit_price`. -/
def mkOrderItemRow (orderId : Nat) (now : Nat) (it : CreateOrderItem) : OrderItemRow :=
  { order_id := orderId
    product_id := it.product_id
    product_name := it.product_name
    quantity := it.quantity
    unit_price := it.unit_price
    total_price := it.quantity * it.unit_price
    created_at := now }

/-- Effect of the customer-stats UPDATE on the matched row:
`order_count = order_count + 1, total_spent = total_spent + $1,
updated_at = NOW()`. -/
def bumpCustomerStats (delta : ℚ) (now : Nat) (c : CustomerRow) : CustomerRow :=
  { c with
    order_count := c.order_count + 1
    total_spent := c.total_spent + delta
    updated_at := now }

/-- The SQL statements issued between BEGIN and COMMIT, in program
order: the order INSERT, one INSERT per line item, and — only when
`customer_id` is truthy — the customer-stats UPDATE. -/
def orderTxnStmts (db : DB) (req : CreateOrderReq) (now : Nat)
    (orderNumber : String) (items : List CreateOrderItem) :
    List (TxnAction × (DB → DB)) :=
  let order := mkOrderRow db req now orderNumber items
  (TxnAction.insertOrder, fun d =>
      { d with orders := d.orders ++ [order], orderSeq := d.orderSeq + 1 }) ::
    (items.map (fun it =>
      (TxnAction.insertItem, fun d =>
        { d with order_items := d.order_items ++ [mkOrderItemRow order.id now it] })) ++
      (match req.customer_id with
        | some cid =>
          if cid ≠ 0 then
            [(TxnAction.updateCustomer, fun d =>
              { d with customers := d.customers.map (fun c =>
                  if c.id == cid then bumpCustomerStats order.total now c else c) })]
          else []
        | none => []))

/-- Outcome of running a sequence of transaction statements against a
working snapshot: whether all succeeded, the resulting snapshot, and
the trace of statements attempted (the failing one included). -/
structure TxnRun where
  ok : Bool
  db : DB
  trace : List TxnAction
  deriving Repr

/-- Runs numbered statements in order against the working snapshot,
stopping at the first one the failure oracle makes throw. -/
def runStmts (fails : Nat → Bool) : Nat → DB → List (TxnAction × (DB → DB)) → TxnRun
  | _, d, [] => ⟨true, d, []⟩
  | i, d, (a, f) :: rest =>
    if fails i then ⟨false, d, [a]⟩
    else
      let r := runStmts fails (i + 1) (f d) rest
      ⟨r.ok, r.db, a :: r.trace⟩

/-- Result of `POST /api/orders`: HTTP status, the committed database
state, the order row returned on success, and the connection trace. -/
structure OrderCreateResult where
  status : Nat
  db : DB
  createdOrder : Option OrderRow
  trace : List TxnAction
  deriving Repr

/-- The `POST /api/orders` handler.  Statement 0 is BEGIN, statements
1.. are those of `orderTxnStmts`, and the last statement is COMMIT.  A
failure at any statement lands in the catch block, which issues
ROLLBACK and responds 500; uncommitted writes are discarded, so the
committed state is the original `db` on every non-201 path.  The
validation check for items runs after BEGIN and returns 400 directly;
`finally` releases the connection on every path. -/
def createOrderHandler (db : DB) (req : CreateOrderReq) (now : Nat)
    (orderNumber : String) (fails : Nat → Bool) : OrderCreateResult :=
  if fails 0 then
    { status := 500, db := db, createdOrder := none
      trace := [.beginTxn, .rollbackTxn, .respond 500, .release] }
  else if itemsInvalid req then
    { status := 400, db := db, createdOrder := none
      trace := [.beginTxn, .respond 400, .release] }
  else
    let items := req.items.getD []
    let stmts := orderTxnStmts db req now orderNumber items
    let r := runStmts fails 1 db stmts
    if r.ok then
      if fails (stmts.length + 1) then
        { status := 500, db := db, createdOrder := none
          trace := [.beginTxn] ++ r.trace ++
            [.commitTxn, .rollbackTxn, .respond 500, .release] }
      else
        { status := 201, db := r.db
          createdOrder := some (mkOrderRow db req now orderNumber items)
          trace := [.beginTxn] ++ r.trace ++ [.commitTxn, .respond 201, .release] }
    else
      { status := 500, db := db, createdOrder := none
        trace := [.beginTxn] ++ r.trace ++ [.rollbackTxn, .respond 500, .release] }

/-! ### Partial updates (PUT) with COALESCE semantics -/

/-- SQL `COALESCE($i, col)` for a NOT NULL column: a bound NULL
(omitted payload field) keeps the stored value. -/
def sqlCoalesce (payload : Option α) (old : α) : α :=
  payload.getD old

/-- SQL `COALESCE($i, col)` for a nullable column: an omitted payload
field keeps the stored value, NULL or not. -/
def sqlCoalesceNullable (payload old : Option α) : Option α :=
  match payload with
  | some v => some v
  | none => old

/-- Result of a PUT handler: HTTP status, new database state, and the
`RETURNING *` row sent back. -/
structure UpdateResult (α : Type) where
  status : Nat
  db : DB
  returned : Option α
  deriving Repr

/-- Per-row effect of the `PUT /api/orders/:id` UPDATE. -/
def applyOrderUpdate (status payment_status notes : Option String)
    (now : Nat) (o : OrderRow) : OrderRow :=
  { o with
    status := sqlCoalesce status o.status
    payment_status := sqlCoalesce payment_status o.payment_status
    notes := sqlCoalesceNullable notes o.notes
    updated_at := now }

/-- The `PUT /api/orders/:id` handler: one UPDATE statement over the
rows matching the id, 404 when `RETURNING *` yields no row. -/
def updateOrderHandler (db : DB) (id : Nat)
    (status payment_status notes : Option String) (now : Nat) :
    UpdateResult OrderRow :=
  let newOrders := db.orders.map (fun o =>
    if o.id == id then applyOrderUpdate status payment_status notes now o else o)
  if (db.orders.filter (fun o => o.id == id)).isEmpty then
    ⟨404, { db with orders := newOrders }, none⟩
  else
    ⟨200, { db with orders := newOrders },
      (newOrders.filter (fun o => o.id == id)).head?⟩

/-- Per-row effect of the `PUT /api/products/:id` UPDATE. -/
def applyProductUpdate (name description : Option String) (price : Option ℚ)
    (category : Option String) (inventory_count : Option Nat)
    (sku : Option String) (active : Option Bool) (image_url : Option String)
    (now : Nat) (p : ProductRow) : ProductRow :=
  { p with
    name := sqlCoalesce name p.name
    description := sqlCoalesceNullable description p.description
    price := sqlCoalesce price p.price
    category := sqlCoalesceNullable category p.category
    inventory_count := sqlCoalesce inventory_count p.inventory_count
    sku := sqlCoalesceNullable sku p.sku
    active := sqlCoalesce active p.active
    image_url := sqlCoalesceNullable image_url p.image_url
    updated_at := now }

/-- The `PUT /api/products/:id` handler. -/
def updateProductHandler (db : DB) (id : Nat) (name description : Option String)
    (price : Option ℚ) (category : Option String) (inventory_count : Option Nat)
    (sku : Option String) (active : Option Bool) (image_url : Option String)
    (now : Nat) : UpdateResult ProductRow :=
  let newProducts := db.products.map (fun p =>
    if p.id == id then
      applyProductUpdate name description price category inventory_count sku
        active image_url now p
    else p)
  if (db.products.filter (fun p => p.id == id)).isEmpty then
    ⟨404, { db with products := newProducts }, none⟩
  else
    ⟨200, { db with products := newProducts },
      (newProducts.filter (fun p => p.id == id)).head?⟩

/-- Per-row effect of the `PUT /api/customers/:id` UPDATE; the payload
may supply `total_spent` and `order_count`, which overwrite the stored
counters. -/
def applyCustomerUpdate (name email phone segment notes : Option String)
    (total_spent : Option ℚ) (order_count : Option Nat) (now : Nat)
    (c : CustomerRow) : CustomerRow :=
  { c with
    name := sqlCoalesce name c.name
    email := sqlCoalesce email c.email
    phone := sqlCoalesceNullable phone c.phone
    segment := sqlCoalesce segment c.segment
    notes := sqlCoalesceNullable notes c.notes
    total_spent := sqlCoalesce total_spent c.total_spent
    order_count := sqlCoalesce order_count c.order_count
    updated_at := now }

/-- The `PUT /api/customers/:id` handler. -/
def updateCustomerHandler (db : DB) (id : Nat)
    (name email phone segment notes : Option String) (total_spent : Option ℚ)
    (order_count : Option Nat) (now : Nat) : UpdateResult CustomerRow :=
  let newCustomers := db.customers.map (fun c =>
    if c.id == id then
      applyCustomerUpdate name email phone segment notes total_spent
        order_count now c
    else c)
  if (db.customers.filter (fun c => c.id == id)).isEmpty then
    ⟨404, { db with customers := newCustomers }, none⟩
  else
    ⟨200, { db with customers := newCustomers },
      (newCustomers.filter (fun c => c.id == id)).head?⟩

/-- Per-row effect of the `PUT /api/competitors/:id` UPDATE (`kind`
embeds the SQL column named `type`).  The `top_items` and `sentiment`
arguments carry the JSON serialization of a supplied structured value:
the source binds `top_items ? JSON.stringify(top_items) : null`, so an
absent (or falsy) payload field arrives as NULL (`none`) and the
COALESCE keeps the stored blob. -/
def applyCompetitorUpdate (name website : Option String) (distance : Option ℚ)
    (kind threat_level : Option String) (rating rating_change : Option ℚ)
    (review_count : Option Nat) (avg_price price_diff : Option ℚ)
    (strengths weaknesses top_items sentiment notes : Option String)
    (now : Nat) (r : CompetitorRow) : CompetitorRow :=
  { r with
    name := sqlCoalesce name r.name
    website := sqlCoalesceNullable website r.website
    distance := sqlCoalesceNullable distance r.distance
    kind := sqlCoalesce kind r.kind
    threat_level := sqlCoalesce threat_level r.threat_level
    rating := sqlCoalesceNullable rating r.rating
    rating_change := sqlCoalesce rating_change r.rating_change
    review_count := sqlCoalesce review_count r.review_count
    avg_price := sqlCoalesceNullable avg_price r.avg_price
    price_diff := sqlCoalesce price_diff r.price_diff
    strengths := sqlCoalesceNullable strengths r.strengths
    weaknesses := sqlCoalesceNullable weaknesses r.weaknesses
    top_items := sqlCoalesceNullable top_items r.top_items
    sentiment := sqlCoalesceNullable sentiment r.sentiment
    notes := sqlCoalesceNullable notes r.notes
    updated_at := now }

/-- The `PUT /api/competitors/:id` handler: one UPDATE statement over
the rows matching the id, 404 when `RETURNING *` yields no row. -/
def updateCompetitorHandler (db : DB) (id : Nat) (name website : Option String)
    (distance : Option ℚ) (kind threat_level : Option String)
    (rating rating_change : Option ℚ) (review_count : Option Nat)
    (avg_price price_diff : Option ℚ)
    (strengths weaknesses top_items sentiment notes : Option String)
    (now : Nat) : UpdateResult CompetitorRow :=
  let newCompetitors := db.competitors.map (fun r =>
    if r.id == id then
      applyCompetitorUpdate name website distance kind threat_level rating
        rating_change review_count avg_price price_diff strengths weaknesses
        top_items sentiment notes now r
    else r)
  if (db.competitors.filter (fun r => r.id == id)).isEmpty then
    ⟨404, { db with competitors := newCompetitors }, none⟩
  else
    ⟨200, { db with competitors := newCompetitors },
      (newCompetitors.filter (fun r => r.id == id)).head?⟩

/-! ### Customer creation and the unique email -/

/-- Body of `POST /api/customers`. -/
structure CreateCustomerReq where
  name : Option String := none
  email : Option String := none
  phone : Option String := none
  segment : Option String := none
  notes : Option String := none
  deriving Repr, DecidableEq

/-- Result of `POST /api/customers`. -/
structure CustomerCreateResult where
  status : Nat
  errorMsg : Option String
  db : DB
  deriving Repr, DecidableEq

/-- Modelled from the spec: the `customers.email` column is declared
"unique email" in the data model; the UNIQUE constraint itself lives in
the database schema, which is not part of the source tree.  An INSERT
whose email equals a stored one raises the unique-violation error
(`error.code === '23505'`) and writes nothing. -/
def customerEmailTaken (db : DB) (email : String) : Bool :=
  db.customers.any (fun c => c.email == email)

/-- The customer row inserted by `POST /api/customers`; the counters
start at their schema defaults of zero (spec: denormalized counters
updated on order creation). -/
def mkCustomerRow (db : DB) (req : CreateCustomerReq) (now : Nat) : CustomerRow :=
  { id := db.customerSeq
    name := req.name.getD ""
    email := req.email.getD ""
    phone := req.phone
    segment := if jsTruthyStr req.segment then req.segment.getD "" else "new"
    notes := req.notes
    total_spent := 0
    order_count := 0
    created_at := now
    updated_at := now }

/-- The `POST /api/customers` handler: 400 when name or email is
falsy; 400 with the duplicate message when the INSERT raises 23505;
otherwise the row is appended and 201 returned. -/
def createCustomerHandler (db : DB) (req : CreateCustomerReq) (now : Nat) :
    CustomerCreateResult :=
  if !jsTruthyStr req.name || !jsTruthyStr req.email then
    ⟨400, some "Name and email are required", db⟩
  else if customerEmailTaken db (req.email.getD "") then
    ⟨400, some "Customer with this email already exists", db⟩
  else
    ⟨201, none,
      { db with
        customers := db.customers ++ [mkCustomerRow db req now]
        customerSeq := db.customerSeq + 1 }⟩

/-- Connection actions that are a ROLLBACK or a response; filtering a
trace by this shows their relative order. -/
def rollbackOrRespond : TxnAction → Bool
  | .rollbackTxn => true
  | .respond _ => true
  | _ => false

/-- Characters allowed in an uppercased base-36 rendering:
decimal digits and uppercase letters. -/
def isUpperBase36Char (c : Char) : Bool :=
  c.isDigit || c.isUpper

/-- A small sample database used to instantiate the list-endpoint
theorems on concrete data: one order joined to one customer, one
product, one competitor. -/
def sampleDB : DB :=
  { orders := [⟨1, "ORD-A", some 7, 0, 0, 0, "pending", "unpaid", none, none,
      none, 5, 5⟩]
    order_items := []
    customers := [⟨7, "Ann", "a@x", none, "new", none, 0, 0, 3, 3⟩]
    products := [⟨2, "Mug", none, 3, some "kitchen", 0, none, true, none, 4, 4⟩]
    competitors := [⟨3, "Rival", none, none, "Direct Competitor", "high", none,
      0, 0, none, 0, none, none, none, none, none, 1, 1⟩]
    orderSeq := 2
    customerSeq := 8 }

/-! ## Helper lemmas -/

theorem runStmts_noFail (fails : Nat → Bool) (hnf : ∀ i, fails i = false) :
    ∀ (stmts : List (TxnAction × (DB → DB))) (i : Nat) (d : DB),
      runStmts fails i d stmts =
        ⟨true, stmts.foldl (fun x p => p.2 x) d, stmts.map Prod.fst⟩ := by
  intro stmts
  induction stmts with
  | nil => intro i d; rfl
  | cons p rest ih =>
    intro i d
    obtain ⟨a, f⟩ := p
    simp [runStmts, hnf i, ih (i + 1) (f d)]

theorem runStmts_trace_subset (fails : Nat → Bool) :
    ∀ (stmts : List (TxnAction × (DB → DB))) (i : Nat) (d : DB) (a : TxnAction),
      a ∈ (runStmts fails i d stmts).trace → a ∈ stmts.map Prod.fst := by
  intro stmts
  induction stmts with
  | nil => intro i d a h; simp [runStmts] at h
  | cons p rest ih =>
    intro i d a h
    obtain ⟨act, f⟩ := p
    by_cases hf : fails i
    · simp [runStmts, hf] at h
      simp [h]
    · simp [runStmts, hf] at h
      rcases h with h | h
      · simp [h]
      · exact List.mem_cons_of_mem _ (ih (i + 1) (f d) a h)

theorem orderTxnStmts_actions (db : DB) (req : CreateOrderReq) (now : Nat)
    (num : String) (items : List CreateOrderItem) :
    ∀ a ∈ (orderTxnStmts db req now num items).map Prod.fst,
      rollbackOrRespond a = false := by
  intro a ha
  rw [orderTxnStmts] at ha
  obtain ⟨p, hp, rfl⟩ := List.mem_map.mp ha
  simp only [List.mem_cons, List.mem_append, List.mem_map] at hp
  rcases hp with rfl | ⟨⟨it, _, rfl⟩ | hc⟩
  · rfl
  · rfl
  · rcases hcid : req.customer_id with _ | cid <;> rw [hcid] at hc
    · simp at hc
    · by_cases hz : cid ≠ 0
      · simp [hz] at hc
        rw [hc]
        rfl
      · simp [hz] at hc

theorem trace_filter_nil (tr : List TxnAction)
    (h : ∀ a ∈ tr, rollbackOrRespond a = false) :
    tr.filter rollbackOrRespond = [] := by
  rw [List.filter_eq_nil_iff]
  intro a ha
  simp [h a ha]

theorem foldl_insertItems (oid now : Nat) :
    ∀ (items : List CreateOrderItem) (d : DB),
      items.foldl (fun x it =>
        { x with order_items := x.order_items ++ [mkOrderItemRow oid now it] }) d =
      { d with order_items := d.order_items ++ items.map (mkOrderItemRow oid now) } := by
  intro items
  induction items with
  | nil => intro d; simp
  | cons a rest ih =>
    intro d
    rw [List.foldl_cons, ih]
    simp [List.append_assoc]

theorem orderTxnStmts_foldl (db : DB) (req : CreateOrderReq) (now : Nat)
    (num : String) (items : List CreateOrderItem) :
    (orderTxnStmts db req now num items).foldl (fun x p => p.2 x) db =
      { db with
        orders := db.orders ++ [mkOrderRow db req now num items]
        orderSeq := db.orderSeq + 1
        order_items := db.order_items ++
          items.map (mkOrderItemRow (mkOrderRow db req now num items).id now)
        customers :=
          match req.customer_id with
          | some cid =>
            if cid ≠ 0 then
              db.customers.map (fun c =>
                if c.id == cid then
                  bumpCustomerStats (mkOrderRow db req now num items).total now c
                else c)
            else db.customers
          | none => db.customers } := by
  rw [orderTxnStmts]
  rcases hcid : req.customer_id with _ | cid
  · simp only [List.foldl_cons, List.foldl_append, List.foldl_map, List.append_nil]
    rw [foldl_insertItems]
  · by_cases hz : cid ≠ 0
    · simp only [if_pos hz, List.foldl_cons, List.foldl_append, List.foldl_map]
      rw [foldl_insertItems]
      rfl
    · simp only [hz, if_false, List.foldl_cons, List.foldl_append, List.foldl_map,
        List.append_nil]
      rw [foldl_insertItems]

theorem orderSubtotal_eq_sum (items : List CreateOrderItem) :
    orderSubtotal items =
      (items.map (fun it => it.quantity * it.unit_price)).sum := by
  have key : ∀ (l : List CreateOrderItem) (acc : ℚ),
      l.foldl (fun a it => a + it.quantity * it.unit_price) acc =
        acc + (l.map (fun it => it.quantity * it.unit_price)).sum := by
    intro l
    induction l with
    | nil => intro acc; simp
    | cons a t ih => intro acc; simp [ih, add_assoc]
  simpa [orderSubtotal] using key items 0

theorem createOrder_success_eq (db : DB) (req : CreateOrderReq) (now : Nat)
    (num : String) (fails : Nat → Bool) (hnf : ∀ i, fails i = false)
    (items : List CreateOrderItem) (hit : req.items = some items)
    (hne : items ≠ []) :
    createOrderHandler db req now num fails =
      { status := 201
        db :=
          { db with
            orders := db.orders ++ [mkOrderRow db req now num items]
            orderSeq := db.orderSeq + 1
            order_items := db.order_items ++
              items.map (mkOrderItemRow (mkOrderRow db req now num items).id now)
            customers :=
              match req.customer_id with
              | some cid =>
                if cid ≠ 0 then
                  db.customers.map (fun c =>
                    if c.id == cid then
                      bumpCustomerStats (mkOrderRow db req now num items).total now c
                    else c)
                else db.customers
              | none => db.customers }
        createdOrder := some (mkOrderRow db req now num items)
        trace := [TxnAction.beginTxn] ++
          (orderTxnStmts db req now num items).map Prod.fst ++
          [TxnAction.commitTxn, TxnAction.respond 201, TxnAction.release] } := by
  have h0 : fails 0 = false := hnf 0
  have hvi : itemsInvalid req = false := by
    simp only [itemsInvalid, hit]
    cases items with
    | nil => exact absurd rfl hne
    | cons a t => rfl
  have hrun := runStmts_noFail fails hnf (orderTxnStmts db req now num items) 1 db
  have hcf : fails ((orderTxnStmts db req now num items).length + 1) = false :=
    hnf _
  simp only [createOrderHandler, h0, hvi, hit, Option.getD_some, hrun, hcf,
    Bool.false_eq_true, if_false, if_true]
  rw [orderTxnStmts_foldl]

/-! ## Claim theorems -/

/-- C2: for every order-creation request, if any database statement
inside the transaction fails (the handler takes its catch path and
responds 500), then the committed database equals the original one — no
order row, no order_items rows, no customer-counter change persists —
and the trace shows the ROLLBACK issued before the error response. -/
theorem orderCreation_failure_rolls_back (db : DB) (req : CreateOrderReq)
    (now : Nat) (num : String) (fails : Nat → Bool)
    (h : (createOrderHandler db req now num fails).status = 500) :
    (createOrderHandler db req now num fails).db = db ∧
    (createOrderHandler db req now num fails).trace.filter rollbackOrRespond =
      [TxnAction.rollbackTxn, TxnAction.respond 500] := by
  by_cases h0 : fails 0
  · refine ⟨?_, ?_⟩ <;> simp [createOrderHandler, h0, rollbackOrRespond]
  · by_cases hv : itemsInvalid req
    · exfalso
      simp [createOrderHandler, h0, hv] at h
    · have hnil : ((runStmts fails 1 db
          (orderTxnStmts db req now num (req.items.getD []))).trace.filter
            rollbackOrRespond) = [] :=
        trace_filter_nil _ (fun a ha =>
          orderTxnStmts_actions db req now num _ a
            (runStmts_trace_subset fails _ 1 db a ha))
      by_cases hok : (runStmts fails 1 db
          (orderTxnStmts db req now num (req.items.getD []))).ok
      · by_cases hcf : fails
            ((orderTxnStmts db req now num (req.items.getD [])).length + 1)
        · refine ⟨?_, ?_⟩ <;>
            simp [createOrderHandler, h0, hv, hok, hcf, List.filter_append,
              hnil, rollbackOrRespond]
        · exfalso
          simp [createOrderHandler, h0, hv, hok, hcf] at h
      · refine ⟨?_, ?_⟩ <;>
          simp [createOrderHandler, h0, hv, hok, List.filter_append, hnil,
            rollbackOrRespond]

/-- Witness for C2 at a concrete input: the second statement (the order
INSERT) fails, the response is 500, the database is unchanged and the
trace shows ROLLBACK before the response. -/
theorem orderCreation_failure_rolls_back_witness :
    (createOrderHandler ⟨[], [], [], [], [], 1, 1⟩
        { items := some [⟨none, none, 2, 10⟩] } 0 "N" (fun i => i == 1)).db =
      ⟨[], [], [], [], [], 1, 1⟩ ∧
    (createOrderHandler ⟨[], [], [], [], [], 1, 1⟩
        { items := some [⟨none, none, 2, 10⟩] } 0 "N"
        (fun i => i == 1)).trace.filter rollbackOrRespond =
      [TxnAction.rollbackTxn, TxnAction.respond 500] :=
  orderCreation_failure_rolls_back ⟨[], [], [], [], [], 1, 1⟩
    { items := some [⟨none, none, 2, 10⟩] } 0 "N" (fun i => i == 1) (by decide)

/-- C4: for every order-creation request whose items field is absent or
an empty list, the handler responds 400 and the database is unchanged
(no order, no order_items, no customer update), provided the BEGIN
statement itself does not throw. -/
theorem orderCreation_emptyItems_400 (db : DB) (req : CreateOrderReq)
    (now : Nat) (num : String) (fails : Nat → Bool)
    (h0 : fails 0 = false)
    (hv : req.items = none ∨ req.items = some []) :
    (createOrderHandler db req now num fails).status = 400 ∧
    (createOrderHandler db req now num fails).db = db := by
  have hvi : itemsInvalid req = true := by
    rcases hv with hv | hv <;> simp [itemsInvalid, hv]
  refine ⟨?_, ?_⟩ <;> simp [createOrderHandler, h0, hvi]

/-- Witness for C4 at a concrete input: an absent items field yields
400 and an unchanged database. -/
theorem orderCreation_emptyItems_400_witness :
    (createOrderHandler ⟨[], [], [], [], [], 1, 1⟩ {} 0 "N"
        (fun _ => false)).status = 400 ∧
    (createOrderHandler ⟨[], [], [], [], [], 1, 1⟩ {} 0 "N"
        (fun _ => false)).db = ⟨[], [], [], [], [], 1, 1⟩ :=
  orderCreation_emptyItems_400 ⟨[], [], [], [], [], 1, 1⟩ {} 0 "N"
    (fun _ => false) rfl (Or.inl rfl)

/-- C10: on the validation-failure path (items absent or empty) the
handler's connection trace is exactly BEGIN, the 400 response, then the
release back to the pool — no ROLLBACK and no COMMIT are issued — and,
on every input whatsoever, a ROLLBACK appears in the trace only on the
catch path (the one that responds 500). -/
theorem orderCreation_validation_leaves_txn_open (db : DB)
    (req : CreateOrderReq) (now : Nat) (num : String) (fails : Nat → Bool)
    (h0 : fails 0 = false) (hv : itemsInvalid req = true) :
    (createOrderHandler db req now num fails).trace =
      [TxnAction.beginTxn, TxnAction.respond 400, TxnAction.release] ∧
    TxnAction.rollbackTxn ∉ (createOrderHandler db req now num fails).trace ∧
    TxnAction.commitTxn ∉ (createOrderHandler db req now num fails).trace ∧
    ∀ (db' : DB) (req' : CreateOrderReq) (now' : Nat) (num' : String)
      (fails' : Nat → Bool),
      TxnAction.rollbackTxn ∈ (createOrderHandler db' req' now' num' fails').trace →
      (createOrderHandler db' req' now' num' fails').status = 500 := by
  refine ⟨by simp [createOrderHandler, h0, hv], ?_, ?_, ?_⟩
  · simp [createOrderHandler, h0, hv]
  · simp [createOrderHandler, h0, hv]
  · intro db' req' now' num' fails' hmem
    by_cases h0' : fails' 0
    · simp [createOrderHandler, h0']
    · by_cases hv' : itemsInvalid req'
      · exfalso
        simp [createOrderHandler, h0', hv'] at hmem
      · by_cases hok : (runStmts fails' 1 db'
            (orderTxnStmts db' req' now' num' (req'.items.getD []))).ok
        · by_cases hcf : fails'
              ((orderTxnStmts db' req' now' num' (req'.items.getD [])).length + 1)
          · simp [createOrderHandler, h0', hv', hok, hcf]
          · exfalso
            simp [createOrderHandler, h0', hv', hok, hcf] at hmem
            have hsub := runStmts_trace_subset fails' _ 1 db' _ hmem
            have hact := orderTxnStmts_actions db' req' now' num' _ _ hsub
            simp [rollbackOrRespond] at hact
        · simp [createOrderHandler, h0', hv', hok]

/-- Witness for C10 at a concrete input: empty items after a clean
BEGIN give the trace BEGIN, respond 400, release, with neither ROLLBACK
nor COMMIT, and on a concrete failing run a ROLLBACK implies a 500. -/
theorem orderCreation_validation_leaves_txn_open_witness :
    (createOrderHandler ⟨[], [], [], [], [], 1, 1⟩
        { items := some [] } 0 "N" (fun _ => false)).trace =
      [TxnAction.beginTxn, TxnAction.respond 400, TxnAction.release] ∧
    TxnAction.rollbackTxn ∉ (createOrderHandler ⟨[], [], [], [], [], 1, 1⟩
        { items := some [] } 0 "N" (fun _ => false)).trace ∧
    TxnAction.commitTxn ∉ (createOrderHandler ⟨[], [], [], [], [], 1, 1⟩
        { items := some [] } 0 "N" (fun _ => false)).trace ∧
    (createOrderHandler ⟨[], [], [], [], [], 1, 1⟩
        { items := some [⟨none, none, 1, 1⟩] } 0 "N" (fun i => i == 1)).status = 500 := by
  have h := orderCreation_validation_leaves_txn_open ⟨[], [], [], [], [], 1, 1⟩
    { items := some [] } 0 "N" (fun _ => false) rfl (by decide)
  exact ⟨h.1, h.2.1, h.2.2.1,
    h.2.2.2 ⟨[], [], [], [], [], 1, 1⟩ { items := some [⟨none, none, 1, 1⟩] } 0 "N"
      (fun i => i == 1) (by decide)⟩

/-- C3: every successfully created order has subtotal equal to the sum
over line items of quantity times unit_price, tax exactly 8% of that
subtotal, total = subtotal + tax, and one persisted `order_items` row
per line item, each with `total_price = quantity * unit_price`. -/
theorem orderCreation_totals (db : DB) (req : CreateOrderReq) (now : Nat)
    (num : String) (fails : Nat → Bool) (hnf : ∀ i, fails i = false)
    (items : List CreateOrderItem) (hit : req.items = some items)
    (hne : items ≠ []) :
    (createOrderHandler db req now num fails).status = 201 ∧
    ∃ ord : OrderRow,
      (createOrderHandler db req now num fails).createdOrder = some ord ∧
      ord.subtotal = (items.map (fun it => it.quantity * it.unit_price)).sum ∧
      ord.tax = ord.subtotal * ((8 : ℚ) / 100) ∧
      ord.total = ord.subtotal + ord.tax ∧
      (createOrderHandler db req now num fails).db.order_items =
        db.order_items ++ items.map (mkOrderItemRow ord.id now) ∧
      (items.map (mkOrderItemRow ord.id now)).length = items.length ∧
      ∀ row ∈ items.map (mkOrderItemRow ord.id now),
        row.total_price = row.quantity * row.unit_price := by
  rw [createOrder_success_eq db req now num fails hnf items hit hne]
  refine ⟨rfl, mkOrderRow db req now num items, rfl, ?_, rfl, rfl, rfl,
    List.length_map _ _, ?_⟩
  · simp [mkOrderRow, orderSubtotal_eq_sum]
  · intro row hrow
    obtain ⟨it, _, rfl⟩ := List.mem_map.mp hrow
    rfl

/-- Witness for C3 at the spec's concrete input: items
`[{qty 2, price 10}, {qty 1, price 5}]` yield a 201 with subtotal 25,
tax 2, total 27 and exactly two item rows, each with
`total_price = quantity * unit_price`. -/
theorem orderCreation_totals_witness :
    (createOrderHandler ⟨[], [], [], [], [], 1, 1⟩
        { items := some [⟨none, none, 2, 10⟩, ⟨none, none, 1, 5⟩] } 9 "N"
        (fun _ => false)).status = 201 ∧
    ∃ ord : OrderRow,
      (createOrderHandler ⟨[], [], [], [], [], 1, 1⟩
          { items := some [⟨none, none, 2, 10⟩, ⟨none, none, 1, 5⟩] } 9 "N"
          (fun _ => false)).createdOrder = some ord ∧
      ord.subtotal = 25 ∧ ord.tax = 2 ∧ ord.total = 27 ∧
      (createOrderHandler ⟨[], [], [], [], [], 1, 1⟩
          { items := some [⟨none, none, 2, 10⟩, ⟨none, none, 1, 5⟩] } 9 "N"
          (fun _ => false)).db.order_items.length = 2 ∧
      ∀ row ∈ ([⟨none, none, 2, 10⟩, ⟨none, none, 1, 5⟩] :
          List CreateOrderItem).map (mkOrderItemRow ord.id 9),
        row.total_price = row.quantity * row.unit_price := by
  obtain ⟨hst, ord, hord, hsub, htax, htot, hitems, hlen, hrows⟩ :=
    orderCreation_totals ⟨[], [], [], [], [], 1, 1⟩
      { items := some [⟨none, none, 2, 10⟩, ⟨none, none, 1, 5⟩] } 9 "N"
      (fun _ => false) (fun _ => rfl) _ rfl (by decide)
  have h25 : ord.subtotal = 25 := by rw [hsub]; norm_num
  have h2 : ord.tax = 2 := by rw [htax, h25]; norm_num
  have h27 : ord.total = 27 := by rw [htot, h25, h2]; norm_num
  refine ⟨hst, ord, hord, h25, h2, h27, ?_, hrows⟩
  rw [hitems]
  simp

/-- C5: on every successful order creation, when a nonzero customer_id
is attached the customers table becomes exactly the old table with the
matching row's order_count incremented by 1 and total_spent incremented
by the new order's total (its other identifying fields untouched, and
every non-matching row unchanged); when customer_id is absent the
customers table is unchanged. -/
theorem orderCreation_customer_counters (db : DB) (req : CreateOrderReq)
    (now : Nat) (num : String) (fails : Nat → Bool) (hnf : ∀ i, fails i = false)
    (items : List CreateOrderItem) (hit : req.items = some items)
    (hne : items ≠ []) :
    ((req.customer_id = none →
        (createOrderHandler db req now num fails).db.customers = db.customers) ∧
      ∀ cid, req.customer_id = some cid → cid ≠ 0 →
        (createOrderHandler db req now num fails).db.customers =
          db.customers.map (fun c =>
            if c.id == cid then
              bumpCustomerStats (mkOrderRow db req now num items).total now c
            else c)) ∧
    ∀ (c : CustomerRow) (delta : ℚ) (t : Nat),
      (bumpCustomerStats delta t c).order_count = c.order_count + 1 ∧
      (bumpCustomerStats delta t c).total_spent = c.total_spent + delta ∧
      (bumpCustomerStats delta t c).id = c.id ∧
      (bumpCustomerStats delta t c).name = c.name ∧
      (bumpCustomerStats delta t c).email = c.email ∧
      (bumpCustomerStats delta t c).phone = c.phone ∧
      (bumpCustomerStats delta t c).segment = c.segment ∧
      (bumpCustomerStats delta t c).notes = c.notes := by
  rw [createOrder_success_eq db req now num fails hnf items hit hne]
  refine ⟨⟨?_, ?_⟩, ?_⟩
  · intro hcid
    rw [hcid]
  · intro cid hcid hz
    rw [hcid]
    simp [hz]
  · intro c delta t
    exact ⟨rfl, rfl, rfl, rfl, rfl, rfl, rfl, rfl⟩

/-- Witness for C5 at a concrete input: creating a 27-total order
attached to customer 7 takes that customer's counters from (5, 2) to
(32, 3) and leaves customer 8 untouched. -/
theorem orderCreation_customer_counters_witness :
    (createOrderHandler
        ⟨[], [], [⟨7, "Ann", "a@x", none, "new", none, 5, 2, 0, 0⟩,
          ⟨8, "Bea", "b@x", none, "new", none, 1, 1, 0, 0⟩], [], [], 1, 1⟩
        { customer_id := some 7
          items := some [⟨none, none, 2, 10⟩, ⟨none, none, 1, 5⟩] } 9 "N"
        (fun _ => false)).db.customers =
      [⟨7, "Ann", "a@x", none, "new", none, 32, 3, 0, 9⟩,
        ⟨8, "Bea", "b@x", none, "new", none, 1, 1, 0, 0⟩] := by
  have h := ((orderCreation_customer_counters
      ⟨[], [], [⟨7, "Ann", "a@x", none, "new", none, 5, 2, 0, 0⟩,
        ⟨8, "Bea", "b@x", none, "new", none, 1, 1, 0, 0⟩], [], [], 1, 1⟩
      { customer_id := some 7
        items := some [⟨none, none, 2, 10⟩, ⟨none, none, 1, 5⟩] } 9 "N"
      (fun _ => false) (fun _ => rfl) _ rfl (by decide)).1).2 7 rfl
      (by decide)
  rw [h]
  simp only [List.map_cons, List.map_nil]
  norm_num [bumpCustomerStats, mkOrderRow, orderSubtotal]

theorem mem_page_pred {α : Type} (rows : List α) (pred : α → Bool)
    (le : α → α → Bool) (lim off : Nat) (r : α)
    (hr : r ∈ (((rows.filter pred).mergeSort le).drop off).take lim) :
    pred r = true := by
  have h1 : r ∈ ((rows.filter pred).mergeSort le).drop off :=
    List.take_subset _ _ hr
  have h2 : r ∈ (rows.filter pred).mergeSort le := List.drop_subset _ _ h1
  rw [List.mem_mergeSort] at h2
  exact (List.mem_filter.mp h2).2

/-- C1: for each of the four list endpoints and every combination of
its supported filter parameters, the total in the envelope equals the
number of rows satisfying the same WHERE predicate the page query
filters by, every returned page row satisfies that predicate, and the
total is unchanged under any limit/offset — so it is correct even when
the page is empty or shorter than limit. -/
theorem listEndpoints_total_correct :
    (∀ (db : DB) (q : OrdersQuery),
      (ordersListHandler db q).total =
        ((ordersJoinRows db).filter (ordersWhere q)).length ∧
      (∀ r ∈ (ordersListHandler db q).data, ordersWhere q r = true) ∧
      ∀ l o, (ordersListHandler db { q with limit := l, offset := o }).total =
        (ordersListHandler db q).total) ∧
    (∀ (db : DB) (q : ProductsQuery),
      (productsListHandler db q).total =
        (db.products.filter (productsWhere q)).length ∧
      (∀ r ∈ (productsListHandler db q).data, productsWhere q r = true) ∧
      ∀ l o, (productsListHandler db { q with limit := l, offset := o }).total =
        (productsListHandler db q).total) ∧
    (∀ (db : DB) (q : CustomersQuery),
      (customersListHandler db q).total =
        (db.customers.filter (customersWhere q)).length ∧
      (∀ r ∈ (customersListHandler db q).data, customersWhere q r = true) ∧
      ∀ l o, (customersListHandler db { q with limit := l, offset := o }).total =
        (customersListHandler db q).total) ∧
    (∀ (db : DB) (q : CompetitorsQuery),
      (competitorsListHandler db q).total =
        (db.competitors.filter (competitorsWhere q)).length ∧
      (∀ r ∈ (competitorsListHandler db q).data, competitorsWhere q r = true) ∧
      ∀ l o, (competitorsListHandler db { q with limit := l, offset := o }).total =
        (competitorsListHandler db q).total) := by
  refine ⟨fun db q => ⟨rfl, fun r hr => mem_page_pred _ _ _ _ _ r hr, fun l o => rfl⟩,
    fun db q => ⟨rfl, fun r hr => mem_page_pred _ _ _ _ _ r hr, fun l o => rfl⟩,
    fun db q => ⟨rfl, fun r hr => mem_page_pred _ _ _ _ _ r hr, fun l o => rfl⟩,
    fun db q => ⟨rfl, fun r hr => mem_page_pred _ _ _ _ _ r hr, fun l o => rfl⟩⟩

/-- Witness for C1 on the sample database: a status filter on orders
gives total 1 regardless of limit/offset, the returned joined row
satisfies the predicate, and each other endpoint's total matches its
filtered row count. -/
theorem listEndpoints_total_correct_witness :
    (ordersListHandler sampleDB ⟨50, 0, some "pending", none, none⟩).total = 1 ∧
    ordersWhere ⟨50, 0, some "pending", none, none⟩
      ⟨⟨1, "ORD-A", some 7, 0, 0, 0, "pending", "unpaid", none, none, none, 5, 5⟩,
        some "Ann", some "a@x"⟩ = true ∧
    (ordersListHandler sampleDB ⟨3, 9, some "pending", none, none⟩).total = 1 ∧
    (productsListHandler sampleDB ⟨50, 0, some "kitchen", some "true", none⟩).total = 1 ∧
    (customersListHandler sampleDB ⟨50, 0, none, some "new"⟩).total = 1 ∧
    (competitorsListHandler sampleDB ⟨20, 0, some "high"⟩).total = 1 := by
  have h := listEndpoints_total_correct
  refine ⟨((h.1 sampleDB ⟨50, 0, some "pending", none, none⟩).1).trans (by decide),
    (h.1 sampleDB ⟨50, 0, some "pending", none, none⟩).2.1
      ⟨⟨1, "ORD-A", some 7, 0, 0, 0, "pending", "unpaid", none, none, none, 5, 5⟩,
        some "Ann", some "a@x"⟩ ?_,
    ((h.1 sampleDB ⟨50, 0, some "pending", none, none⟩).2.2 3 9).trans
      (((h.1 sampleDB ⟨50, 0, some "pending", none, none⟩).1).trans (by decide)),
    ((h.2.1 sampleDB ⟨50, 0, some "kitchen", some "true", none⟩).1).trans (by decide),
    ((h.2.2.1 sampleDB ⟨50, 0, none, some "new"⟩).1).trans (by decide),
    ((h.2.2.2 sampleDB ⟨20, 0, some "high"⟩).1).trans (by decide)⟩
  simp [ordersListHandler, ordersPage, ordersJoinRows, sampleDB, ordersWhere,
    jsTruthyStr, List.filter]

/-- C6: every PUT partial update maps each stored row with the matched
id through a per-column COALESCE: a field omitted from the payload
(`none`) keeps its previous stored value, fields outside the payload
plus `updated_at` are untouched, and in particular updating an order
with only `{status : "completed"}` leaves payment_status and notes
unchanged.  Stated for all four update handlers: orders, products,
customers and competitors. -/
theorem putUpdates_coalesce_frame :
    (∀ (db : DB) (id : Nat) (st ps no : Option String) (now : Nat),
      (updateOrderHandler db id st ps no now).db.orders =
        db.orders.map (fun o =>
          if o.id == id then applyOrderUpdate st ps no now o else o)) ∧
    (∀ (st ps no : Option String) (now : Nat) (o : OrderRow),
      (st = none → (applyOrderUpdate st ps no now o).status = o.status) ∧
      (ps = none →
        (applyOrderUpdate st ps no now o).payment_status = o.payment_status) ∧
      (no = none → (applyOrderUpdate st ps no now o).notes = o.notes) ∧
      (applyOrderUpdate st ps no now o).id = o.id ∧
      (applyOrderUpdate st ps no now o).order_number = o.order_number ∧
      (applyOrderUpdate st ps no now o).customer_id = o.customer_id ∧
      (applyOrderUpdate st ps no now o).subtotal = o.subtotal ∧
      (applyOrderUpdate st ps no now o).tax = o.tax ∧
      (applyOrderUpdate st ps no now o).total = o.total ∧
      (applyOrderUpdate st ps no now o).shipping_address = o.shipping_address ∧
      (applyOrderUpdate st ps no now o).payment_method = o.payment_method ∧
      (applyOrderUpdate st ps no now o).created_at = o.created_at ∧
      (applyOrderUpdate st ps no now o).updated_at = now) ∧
    (∀ (now : Nat) (o : OrderRow),
      (applyOrderUpdate (some "completed") none none now o).status = "completed" ∧
      (applyOrderUpdate (some "completed") none none now o).payment_status =
        o.payment_status ∧
      (applyOrderUpdate (some "completed") none none now o).notes = o.notes) ∧
    (∀ (db : DB) (id : Nat) (name desc : Option String) (price : Option ℚ)
      (cat : Option String) (inv : Option Nat) (sku : Option String)
      (act : Option Bool) (img : Option String) (now : Nat),
      (updateProductHandler db id name desc price cat inv sku act img now).db.products =
        db.products.map (fun p =>
          if p.id == id then
            applyProductUpdate name desc price cat inv sku act img now p
          else p)) ∧
    (∀ (name desc : Option String) (price : Option ℚ) (cat : Option String)
      (inv : Option Nat) (sku : Option String) (act : Option Bool)
      (img : Option String) (now : Nat) (p : ProductRow),
      (name = none →
        (applyProductUpdate name desc price cat inv sku act img now p).name = p.name) ∧
      (desc = none →
        (applyProductUpdate name desc price cat inv sku act img now p).description =
          p.description) ∧
      (price = none →
        (applyProductUpdate name desc price cat inv sku act img now p).price = p.price) ∧
      (cat = none →
        (applyProductUpdate name desc price cat inv sku act img now p).category =
          p.category) ∧
      (inv = none →
        (applyProductUpdate name desc price cat inv sku act img now p).inventory_count =
          p.inventory_count) ∧
      (sku = none →
        (applyProductUpdate name desc price cat inv sku act img now p).sku = p.sku) ∧
      (act = none →
        (applyProductUpdate name desc price cat inv sku act img now p).active =
          p.active) ∧
      (img = none →
        (applyProductUpdate name desc price cat inv sku act img now p).image_url =
          p.image_url) ∧
      (applyProductUpdate name desc price cat inv sku act img now p).id = p.id ∧
      (applyProductUpdate name desc price cat inv sku act img now p).created_at =
        p.created_at ∧
      (applyProductUpdate name desc price cat inv sku act img now p).updated_at =
        now) ∧
    (∀ (db : DB) (id : Nat) (name email phone segment notes : Option String)
      (ts : Option ℚ) (oc : Option Nat) (now : Nat),
      (updateCustomerHandler db id name email phone segment notes ts oc now).db.customers =
        db.customers.map (fun c =>
          if c.id == id then
            applyCustomerUpdate name email phone segment notes ts oc now c
          else c)) ∧
    (∀ (name email phone segment notes : Option String) (ts : Option ℚ)
      (oc : Option Nat) (now : Nat) (c : CustomerRow),
      (name = none →
        (applyCustomerUpdate name email phone segment notes ts oc now c).name =
          c.name) ∧
      (email = none →
        (applyCustomerUpdate name email phone segment notes ts oc now c).email =
          c.email) ∧
      (phone = none →
        (applyCustomerUpdate name email phone segment notes ts oc now c).phone =
          c.phone) ∧
      (segment = none →
        (applyCustomerUpdate name email phone segment notes ts oc now c).segment =
          c.segment) ∧
      (notes = none →
        (applyCustomerUpdate name email phone segment notes ts oc now c).notes =
          c.notes) ∧
      (ts = none →
        (applyCustomerUpdate name email phone segment notes ts oc now c).total_spent =
          c.total_spent) ∧
      (oc = none →
        (applyCustomerUpdate name email phone segment notes ts oc now c).order_count =
          c.order_count) ∧
      (applyCustomerUpdate name email phone segment notes ts oc now c).id = c.id ∧
      (applyCustomerUpdate name email phone segment notes ts oc now c).created_at =
        c.created_at ∧
      (applyCustomerUpdate name email phone segment notes ts oc now c).updated_at =
        now) ∧
    (∀ (db : DB) (id : Nat) (name website : Option String) (distance : Option ℚ)
      (kind threat_level : Option String) (rating rating_change : Option ℚ)
      (review_count : Option Nat) (avg_price price_diff : Option ℚ)
      (strengths weaknesses top_items sentiment notes : Option String)
      (now : Nat),
      (updateCompetitorHandler db id name website distance kind threat_level
        rating rating_change review_count avg_price price_diff strengths
        weaknesses top_items sentiment notes now).db.competitors =
        db.competitors.map (fun r =>
          if r.id == id then
            applyCompetitorUpdate name website distance kind threat_level rating
              rating_change review_count avg_price price_diff strengths
              weaknesses top_items sentiment notes now r
          else r)) ∧
    (∀ (name website : Option String) (distance : Option ℚ)
      (kind threat_level : Option String) (rating rating_change : Option ℚ)
      (review_count : Option Nat) (avg_price price_diff : Option ℚ)
      (strengths weaknesses top_items sentiment notes : Option String)
      (now : Nat) (r : CompetitorRow),
      (name = none →
        (applyCompetitorUpdate name website distance kind threat_level rating
          rating_change review_count avg_price price_diff strengths weaknesses
          top_items sentiment notes now r).name = r.name) ∧
      (website = none →
        (applyCompetitorUpdate name website distance kind threat_level rating
          rating_change review_count avg_price price_diff strengths weaknesses
          top_items sentiment notes now r).website = r.website) ∧
      (distance = none →
        (applyCompetitorUpdate name website distance kind threat_level rating
          rating_change review_count avg_price price_diff strengths weaknesses
          top_items sentiment notes now r).distance = r.distance) ∧
      (kind = none →
        (applyCompetitorUpdate name website distance kind threat_level rating
          rating_change review_count avg_price price_diff strengths weaknesses
          top_items sentiment notes now r).kind = r.kind) ∧
      (threat_level = none →
        (applyCompetitorUpdate name website distance kind threat_level rating
          rating_change review_count avg_price price_diff strengths weaknesses
          top_items sentiment notes now r).threat_level = r.threat_level) ∧
      (rating = none →
        (applyCompetitorUpdate name website distance kind threat_level rating
          rating_change review_count avg_price price_diff strengths weaknesses
          top_items sentiment notes now r).rating = r.rating) ∧
      (rating_change = none →
        (applyCompetitorUpdate name website distance kind threat_level rating
          rating_change review_count avg_price price_diff strengths weaknesses
          top_items sentiment notes now r).rating_change = r.rating_change) ∧
      (review_count = none →
        (applyCompetitorUpdate name website distance kind threat_level rating
          rating_change review_count avg_price price_diff strengths weaknesses
          top_items sentiment notes now r).review_count = r.review_count) ∧
      (avg_price = none →
        (applyCompetitorUpdate name website distance kind threat_level rating
          rating_change review_count avg_price price_diff strengths weaknesses
          top_items sentiment notes now r).avg_price = r.avg_price) ∧
      (price_diff = none →
        (applyCompetitorUpdate name website distance kind threat_level rating
          rating_change review_count avg_price price_diff strengths weaknesses
          top_items sentiment notes now r).price_diff = r.price_diff) ∧
      (strengths = none →
        (applyCompetitorUpdate name website distance kind threat_level rating
          rating_change review_count avg_price price_diff strengths weaknesses
          top_items sentiment notes now r).strengths = r.strengths) ∧
      (weaknesses = none →
        (applyCompetitorUpdate name website distance kind threat_level rating
          rating_change review_count avg_price price_diff strengths weaknesses
          top_items sentiment notes now r).weaknesses = r.weaknesses) ∧
      (top_items = none →
        (applyCompetitorUpdate name website distance kind threat_level rating
          rating_change review_count avg_price price_diff strengths weaknesses
          top_items sentiment notes now r).top_items = r.top_items) ∧
      (sentiment = none →
        (applyCompetitorUpdate name website distance kind threat_level rating
          rating_change review_count avg_price price_diff strengths weaknesses
          top_items sentiment notes now r).sentiment = r.sentiment) ∧
      (notes = none →
        (applyCompetitorUpdate name website distance kind threat_level rating
          rating_change review_count avg_price price_diff strengths weaknesses
          top_items sentiment notes now r).notes = r.notes) ∧
      (applyCompetitorUpdate name website distance kind threat_level rating
        rating_change review_count avg_price price_diff strengths weaknesses
        top_items sentiment notes now r).id = r.id ∧
      (applyCompetitorUpdate name website distance kind threat_level rating
        rating_change review_count avg_price price_diff strengths weaknesses
        top_items sentiment notes now r).created_at = r.created_at ∧
      (applyCompetitorUpdate name website distance kind threat_level rating
        rating_change review_count avg_price price_diff strengths weaknesses
        top_items sentiment notes now r).updated_at = now) := by
  refine ⟨?_, ?_, ?_, ?_, ?_, ?_, ?_, ?_, ?_⟩
  · intro db id st ps no now
    simp only [updateOrderHandler]
    split <;> rfl
  · intro st ps no now o
    exact ⟨fun h => by rw [h]; rfl, fun h => by rw [h]; rfl, fun h => by rw [h]; rfl,
      rfl, rfl, rfl, rfl, rfl, rfl, rfl, rfl, rfl, rfl⟩
  · intro now o
    exact ⟨rfl, rfl, rfl⟩
  · intro db id name desc price cat inv sku act img now
    simp only [updateProductHandler]
    split <;> rfl
  · intro name desc price cat inv sku act img now p
    exact ⟨fun h => by rw [h]; rfl, fun h => by rw [h]; rfl, fun h => by rw [h]; rfl,
      fun h => by rw [h]; rfl, fun h => by rw [h]; rfl, fun h => by rw [h]; rfl,
      fun h => by rw [h]; rfl, fun h => by rw [h]; rfl, rfl, rfl, rfl⟩
  · intro db id name email phone segment notes ts oc now
    simp only [updateCustomerHandler]
    split <;> rfl
  · intro name email phone segment notes ts oc now c
    exact ⟨fun h => by rw [h]; rfl, fun h => by rw [h]; rfl, fun h => by rw [h]; rfl,
      fun h => by rw [h]; rfl, fun h => by rw [h]; rfl, fun h => by rw [h]; rfl,
      fun h => by rw [h]; rfl, rfl, rfl, rfl⟩
  · intro db id name website distance kind threat_level rating rating_change
      review_count avg_price price_diff strengths weaknesses top_items sentiment
      notes now
    simp only [updateCompetitorHandler]
    split <;> rfl
  · intro name website distance kind threat_level rating rating_change
      review_count avg_price price_diff strengths weaknesses top_items sentiment
      notes now r
    exact ⟨fun h => by rw [h]; rfl, fun h => by rw [h]; rfl, fun h => by rw [h]; rfl,
      fun h => by rw [h]; rfl, fun h => by rw [h]; rfl, fun h => by rw [h]; rfl,
      fun h => by rw [h]; rfl, fun h => by rw [h]; rfl, fun h => by rw [h]; rfl,
      fun h => by rw [h]; rfl, fun h => by rw [h]; rfl, fun h => by rw [h]; rfl,
      fun h => by rw [h]; rfl, fun h => by rw [h]; rfl, fun h => by rw [h]; rfl,
      rfl, rfl, rfl⟩

/-- Witness for C6 at concrete inputs: updating a stored order with
only `{status : "completed"}` leaves payment_status and notes at their
stored values, an all-omitted product payload keeps every product
field, an all-omitted customer payload keeps notes and both counters,
and a competitor payload supplying only `name` keeps threat_level and
the stored top_items blob. -/
theorem putUpdates_coalesce_frame_witness :
    (updateOrderHandler
        ⟨[⟨1, "X", none, 1, 2, 3, "pending", "unpaid", some "keep", none, none, 0, 0⟩],
          [], [], [], [], 2, 1⟩ 1 (some "completed") none none 5).db.orders =
      [applyOrderUpdate (some "completed") none none 5
        ⟨1, "X", none, 1, 2, 3, "pending", "unpaid", some "keep", none, none, 0, 0⟩] ∧
    (applyOrderUpdate (some "completed") none none 5
        ⟨1, "X", none, 1, 2, 3, "pending", "unpaid", some "keep", none, none, 0, 0⟩).status =
      "completed" ∧
    (applyOrderUpdate (some "completed") none none 5
        ⟨1, "X", none, 1, 2, 3, "pending", "unpaid", some "keep", none, none, 0, 0⟩).payment_status =
      "unpaid" ∧
    (applyOrderUpdate (some "completed") none none 5
        ⟨1, "X", none, 1, 2, 3, "pending", "unpaid", some "keep", none, none, 0, 0⟩).notes =
      some "keep" ∧
    (applyProductUpdate none none none none none none none none 5
        ⟨2, "Mug", none, 3, some "kitchen", 4, none, true, none, 0, 0⟩).name = "Mug" ∧
    (applyProductUpdate none none none none none none none none 5
        ⟨2, "Mug", none, 3, some "kitchen", 4, none, true, none, 0, 0⟩).active = true ∧
    (applyCustomerUpdate none none none none none none none 6
        ⟨7, "Ann", "a@x", none, "new", some "vip", 5, 2, 0, 0⟩).notes = some "vip" ∧
    (applyCustomerUpdate none none none none none none none 6
        ⟨7, "Ann", "a@x", none, "new", some "vip", 5, 2, 0, 0⟩).total_spent = 5 ∧
    (applyCustomerUpdate none none none none none none none 6
        ⟨7, "Ann", "a@x", none, "new", some "vip", 5, 2, 0, 0⟩).order_count = 2 ∧
    (applyCompetitorUpdate (some "R2") none none none none none none none none
        none none none none none none 6
        ⟨3, "Rival", none, none, "Direct Competitor", "high", none, 0, 0, none,
          0, none, none, some "[1]", none, none, 1, 1⟩).threat_level = "high" ∧
    (applyCompetitorUpdate (some "R2") none none none none none none none none
        none none none none none none 6
        ⟨3, "Rival", none, none, "Direct Competitor", "high", none, 0, 0, none,
          0, none, none, some "[1]", none, none, 1, 1⟩).top_items = some "[1]" := by
  have h := putUpdates_coalesce_frame
  have horders := h.1 ⟨[⟨1, "X", none, 1, 2, 3, "pending", "unpaid", some "keep",
    none, none, 0, 0⟩], [], [], [], [], 2, 1⟩ 1 (some "completed") none none 5
  have hcomp := h.2.2.1 5
    ⟨1, "X", none, 1, 2, 3, "pending", "unpaid", some "keep", none, none, 0, 0⟩
  have hprod := h.2.2.2.2.1 none none none none none none none none 5
    ⟨2, "Mug", none, 3, some "kitchen", 4, none, true, none, 0, 0⟩
  have hcust := h.2.2.2.2.2.2.1 none none none none none none none 6
    ⟨7, "Ann", "a@x", none, "new", some "vip", 5, 2, 0, 0⟩
  obtain ⟨-, -, -, -, hnotes, hts, hoc, -, -, -⟩ := hcust
  have hcptr := h.2.2.2.2.2.2.2.2 (some "R2") none none none none none none none
    none none none none none none none 6
    ⟨3, "Rival", none, none, "Direct Competitor", "high", none, 0, 0, none, 0,
      none, none, some "[1]", none, none, 1, 1⟩
  obtain ⟨-, -, -, -, hthreat, -, -, -, -, -, -, -, htop, -, -, -, -, -⟩ := hcptr
  exact ⟨by rw [horders]; rfl, hcomp.1, hcomp.2.1, hcomp.2.2,
    hprod.1 rfl, hprod.2.2.2.2.2.2.1 rfl, hnotes rfl, hts rfl, hoc rfl,
    hthreat rfl, htop rfl⟩

/-- C7: creating a customer and then creating another one with the
same email makes the second request fail with 400 and the
duplicate-email message (raised by the unique-violation error code),
while the database — in particular the first customer's row — is left
exactly as the first creation left it. -/
theorem duplicateCustomerEmail_400 (db : DB) (r1 r2 : CreateCustomerReq)
    (t1 t2 : Nat)
    (hn1 : jsTruthyStr r1.name = true) (he1 : jsTruthyStr r1.email = true)
    (hfresh : customerEmailTaken db (r1.email.getD "") = false)
    (hn2 : jsTruthyStr r2.name = true) (hemail : r2.email = r1.email) :
    (createCustomerHandler db r1 t1).status = 201 ∧
    (createCustomerHandler (createCustomerHandler db r1 t1).db r2 t2).status = 400 ∧
    (createCustomerHandler (createCustomerHandler db r1 t1).db r2 t2).errorMsg =
      some "Customer with this email already exists" ∧
    (createCustomerHandler (createCustomerHandler db r1 t1).db r2 t2).db =
      (createCustomerHandler db r1 t1).db ∧
    (createCustomerHandler db r1 t1).db.customers =
      db.customers ++ [mkCustomerRow db r1 t1] := by
  have he2 : jsTruthyStr r2.email = true := by rw [hemail]; exact he1
  have hfirst : createCustomerHandler db r1 t1 =
      ⟨201, none,
        { db with
          customers := db.customers ++ [mkCustomerRow db r1 t1]
          customerSeq := db.customerSeq + 1 }⟩ := by
    simp [createCustomerHandler, hn1, he1, hfresh]
  rw [hfirst]
  have htaken : customerEmailTaken
      { db with
        customers := db.customers ++ [mkCustomerRow db r1 t1]
        customerSeq := db.customerSeq + 1 } (r2.email.getD "") = true := by
    rw [hemail]
    simp [customerEmailTaken, List.any_append, mkCustomerRow]
  refine ⟨rfl, ?_, ?_, ?_, rfl⟩ <;>
    simp [createCustomerHandler, hn2, he2, htaken]

/-- Witness for C7 at a concrete input: after creating Ann with email
`a@x`, a second creation with the same email returns 400 with the
duplicate message and leaves the table as the first creation made it. -/
theorem duplicateCustomerEmail_400_witness :
    (createCustomerHandler ⟨[], [], [], [], [], 1, 1⟩
        { name := some "Ann", email := some "a@x" } 3).status = 201 ∧
    (createCustomerHandler
        (createCustomerHandler ⟨[], [], [], [], [], 1, 1⟩
          { name := some "Ann", email := some "a@x" } 3).db
        { name := some "Bob", email := some "a@x" } 4).status = 400 ∧
    (createCustomerHandler
        (createCustomerHandler ⟨[], [], [], [], [], 1, 1⟩
          { name := some "Ann", email := some "a@x" } 3).db
        { name := some "Bob", email := some "a@x" } 4).errorMsg =
      some "Customer with this email already exists" ∧
    (createCustomerHandler
        (createCustomerHandler ⟨[], [], [], [], [], 1, 1⟩
          { name := some "Ann", email := some "a@x" } 3).db
        { name := some "Bob", email := some "a@x" } 4).db =
      (createCustomerHandler ⟨[], [], [], [], [], 1, 1⟩
        { name := some "Ann", email := some "a@x" } 3).db ∧
    (createCustomerHandler ⟨[], [], [], [], [], 1, 1⟩
        { name := some "Ann", email := some "a@x" } 3).db.customers =
      [] ++ [mkCustomerRow ⟨[], [], [], [], [], 1, 1⟩
        { name := some "Ann", email := some "a@x" } 3] :=
  duplicateCustomerEmail_400 ⟨[], [], [], [], [], 1, 1⟩
    { name := some "Ann", email := some "a@x" }
    { name := some "Bob", email := some "a@x" } 3 4
    (by decide) (by decide) (by decide) (by decide) rfl

/-- C9: the customer partial-update endpoint accepts `total_spent` and
`order_count` in its payload and overwrites the stored denormalized
counters with the supplied values, applying the same COALESCE update to
every row matching the id. -/
theorem customerPut_overwrites_counters :
    (∀ (db : DB) (id : Nat) (name email phone segment notes : Option String)
      (ts : Option ℚ) (oc : Option Nat) (now : Nat),
      (updateCustomerHandler db id name email phone segment notes ts oc now).db.customers =
        db.customers.map (fun c =>
          if c.id == id then
            applyCustomerUpdate name email phone segment notes ts oc now c
          else c)) ∧
    ∀ (name email phone segment notes : Option String) (v : ℚ) (n : Nat)
      (now : Nat) (c : CustomerRow),
      (applyCustomerUpdate name email phone segment notes (some v) (some n) now
        c).total_spent = v ∧
      (applyCustomerUpdate name email phone segment notes (some v) (some n) now
        c).order_count = n := by
  refine ⟨?_, ?_⟩
  · intro db id name email phone segment notes ts oc now
    simp only [updateCustomerHandler]
    split <;> rfl
  · intro name email phone segment notes v n now c
    exact ⟨rfl, rfl⟩

theorem length_toUpper (s : String) : s.toUpper.length = s.length := by
  rw [String.toUpper, String.map_eq]
  exact List.length_map _ _

theorem upper_base36DigitChar :
    ∀ d : Fin 36, isUpperBase36Char ((base36DigitChar d.val).toUpper) = true := by
  decide

theorem natToBase36Aux_chars : ∀ (n : Nat) (acc : List Char),
    (∀ c ∈ acc, ∃ d : Fin 36, c = base36DigitChar d.val) →
    ∀ c ∈ natToBase36Aux n acc, ∃ d : Fin 36, c = base36DigitChar d.val := by
  intro n
  induction n using Nat.strong_induction_on with
  | _ n ih =>
    intro acc hacc c hc
    rw [natToBase36Aux] at hc
    split at hc
    · exact hacc c hc
    · rename_i hn
      exact ih (n / 36) (Nat.div_lt_self (Nat.pos_of_ne_zero hn) (by decide))
        (base36DigitChar (n % 36) :: acc)
        (fun c' hc' => by
          rcases List.mem_cons.mp hc' with rfl | h
          · exact ⟨⟨n % 36, Nat.mod_lt n (by decide)⟩, rfl⟩
          · exact hacc c' h) c hc

/-- C8 counterexample: the claim that the random suffix always has 4
characters fails on the draw whose base-36 expansion is the single
digit 9 (the value 0.25, rendered `"0.9"`, whose `substring(2, 6)` is
just `"9"`): no 4-character suffix decomposition of the generated
string exists. -/
theorem generateOrderNumber_fourchar_cex :
    ¬ ∃ sfx : String, sfx.length = 4 ∧
      generateOrderNumber 0 [⟨9, by decide⟩] =
        "ORD" ++ "-" ++ (natToBase36 0).toUpper ++ "-" ++ sfx := by
  rintro ⟨sfx, hlen, heq⟩
  have h := congrArg String.length heq
  simp only [generateOrderNumber, String.length_append] at h
  have h1 : (randomSuffix [⟨9, by decide⟩]).toUpper.length = 1 := by
    rw [length_toUpper]; rfl
  omega

/-- C8 amended: every generated order number is exactly the prefix
`ORD`, a hyphen, the current timestamp in base 36 uppercased, a hyphen,
and the random suffix uppercased, where the suffix consists of the
first `min 4 k` digits of the random draw's base-36 expansion (`k` its
digit count) — so it has at most 4 characters, exactly 4 only when the
expansion is long enough — and every character of the timestamp and
suffix parts is an uppercase base-36 digit. -/
theorem generateOrderNumber_format (nowMs : Nat) (rand : List (Fin 36)) :
    generateOrderNumber nowMs rand =
      "ORD" ++ "-" ++ (natToBase36 nowMs).toUpper ++ "-" ++
        (randomSuffix rand).toUpper ∧
    (randomSuffix rand).toUpper.length = min 4 rand.length ∧
    (∀ c ∈ ((randomSuffix rand).toUpper).data, isUpperBase36Char c = true) ∧
    (∀ c ∈ ((natToBase36 nowMs).toUpper).data, isUpperBase36Char c = true) := by
  refine ⟨rfl, ?_, ?_, ?_⟩
  · rw [length_toUpper]
    show ((rand.take 4).map (fun d => base36DigitChar d.val)).length = min 4 rand.length
    simp
  · intro c hc
    rw [String.toUpper, String.map_eq] at hc
    obtain ⟨c', hc', rfl⟩ := List.mem_map.mp hc
    obtain ⟨d, _, rfl⟩ := List.mem_map.mp
      (show c' ∈ (rand.take 4).map (fun d => base36DigitChar d.val) from hc')
    exact upper_base36DigitChar d
  · intro c hc
    rw [String.toUpper, String.map_eq] at hc
    obtain ⟨c', hc', rfl⟩ := List.mem_map.mp hc
    by_cases h0 : nowMs = 0
    · subst h0
      simp only [natToBase36, if_pos rfl] at hc'
      have : c' = '0' := by simpa using hc'
      subst this
      decide
    · obtain ⟨d, rfl⟩ := natToBase36Aux_chars nowMs [] (by simp) c'
        (by simpa [natToBase36, h0] using hc')
      exact upper_base36DigitChar d

/-- Witness for C8's amended claim at a concrete input: timestamp 35
(base 36 `z`) and the single-digit draw 10 (`a`) give the uppercased
parts, a suffix of length `min 4 1 = 1`, and an uppercase-base-36
suffix character. -/
theorem generateOrderNumber_format_witness :
    generateOrderNumber 35 [⟨10, by decide⟩] =
      "ORD" ++ "-" ++ (natToBase36 35).toUpper ++ "-" ++
        (randomSuffix [⟨10, by decide⟩]).toUpper ∧
    (randomSuffix [⟨10, by decide⟩]).toUpper.length = min 4 1 ∧
    isUpperBase36Char 'A' = true := by
  have h := generateOrderNumber_format 35 [⟨10, by decide⟩]
  refine ⟨h.1, h.2.1, ?_⟩
  refine h.2.2.1 'A' ?_
  simp only [String.toUpper, String.map_eq, randomSuffix]
  decide

end CommonCents
